/-
Verification of the frame-processing pipeline of the
fake-fsd-realtime-vehicle-video-analysis repository.

The development shallowly embeds the pure logic of
`src/vehicle_detector.py` (class `VehicleDetector`) and
`src/qt_gui/python_detector.py` (`detect_frame`).  Pixel coordinates and
confidences are modelled with `ℚ` (the Python code uses floats; the
claims under study concern the exact arithmetic structure of the
rescaling, filtering and windowing logic, not float rounding).  External
libraries (the YOLO model, the ByteTrack tracker, OpenCV drawing
primitives) are modelled as parameters or as abstract drawing functions
that only touch a declared pixel region, mirroring how the repository
code consumes them.
-/
import Mathlib

namespace VehicleDetection

/-- An axis-aligned bounding box `(x1, y1, x2, y2)` in pixel space,
as stored in one row of `detections.xyxy`. -/
structure Box where
  x1 : ℚ
  y1 : ℚ
  x2 : ℚ
  y2 : ℚ
deriving Repr, DecidableEq, Inhabited

/-- Embedding of a `supervision.Detections` object: parallel lists
`xyxy`, `confidence`, `class_id`, and the optional `tracker_id` array
(`none` models a `tracker_id` that is not populated).  `len(detections)`
in Python is the length of `xyxy`. -/
structure Detections where
  xyxy : List Box
  confidence : List ℚ
  class_id : List ℕ
  tracker_id : Option (List ℤ)
deriving Repr, DecidableEq, Inhabited

/-- `len(detections)` in the Python sources: the number of boxes. -/
def Detections.len (d : Detections) : ℕ := d.xyxy.length

/-- Boolean-mask indexing `xs[mask]` of numpy / supervision: keep the
elements of `xs` whose mask entry is `true` (truncating at the shorter
of the two lists, as numpy would reject mismatched lengths anyway). -/
def applyMask : List Bool → List α → List α
  | true :: m, x :: xs => x :: applyMask m xs
  | false :: m, _ :: xs => applyMask m xs
  | _, _ => []

/-- The `vehicle_classes` dictionary of `VehicleDetector.__init__`
(COCO class id to class name), in the literal order of the source. -/
def vehicle_classes : List (ℕ × String) :=
  [(0, "person"), (1, "bicycle"), (2, "car"), (3, "motorcycle"),
   (5, "bus"), (7, "truck"), (8, "boat"), (4, "airplane"), (6, "train"),
   (9, "traffic_light"), (10, "fire_hydrant"), (11, "stop_sign"),
   (13, "bench"), (14, "bird"), (15, "cat"), (16, "dog"), (17, "horse"),
   (18, "sheep"), (19, "cow"), (20, "elephant"), (21, "bear"), (22, "zebra"),
   (23, "giraffe"), (24, "backpack"), (25, "umbrella"), (27, "handbag"),
   (28, "suitcase"), (31, "sports_ball"), (32, "kite"), (33, "baseball_bat"),
   (34, "baseball_glove"), (35, "skateboard"), (36, "surfboard"),
   (37, "tennis_racket"), (38, "bottle"), (39, "wine_glass"), (40, "cup"),
   (41, "fork"), (42, "knife"), (43, "spoon"), (44, "bowl"), (46, "banana"),
   (47, "apple"), (48, "sandwich"), (49, "orange"), (50, "broccoli"),
   (51, "carrot"), (52, "hot_dog"), (53, "pizza"), (54, "donut"), (55, "cake"),
   (56, "chair"), (57, "couch"), (58, "potted_plant"), (59, "bed"),
   (60, "dining_table"), (61, "toilet"), (62, "tv"), (63, "laptop"),
   (64, "mouse"), (65, "remote"), (66, "keyboard"), (67, "cell_phone"),
   (68, "microwave"), (69, "oven"), (70, "toaster"), (71, "sink"),
   (72, "refrigerator"), (73, "book"), (74, "clock"), (75, "vase"),
   (76, "scissors"), (77, "teddy_bear"), (78, "hair_drier"), (79, "toothbrush")]

/-- `class_id in self.vehicle_classes`: key membership in the dictionary. -/
def isVehicle (c : ℕ) : Bool := (vehicle_classes.lookup c).isSome

/-- `self.vehicle_classes.get(class_id, f"class_{class_id}")`. -/
def className (c : ℕ) : String :=
  (vehicle_classes.lookup c).getD ("class_" ++ toString c)

/-- `VehicleDetector.filter_vehicles` (lines 88-102): return the
detections unchanged when empty, otherwise apply the vehicle-class
boolean mask to every field (supervision `Detections.__getitem__` with a
boolean mask filters `xyxy`, `confidence`, `class_id` and `tracker_id`
alike). -/
def filter_vehicles (d : Detections) : Detections :=
  if d.xyxy.length = 0 then d
  else
    { xyxy := applyMask (d.class_id.map (fun c => isVehicle c)) d.xyxy
      confidence := applyMask (d.class_id.map (fun c => isVehicle c)) d.confidence
      class_id := applyMask (d.class_id.map (fun c => isVehicle c)) d.class_id
      tracker_id := d.tracker_id.map
        (fun t => applyMask (d.class_id.map (fun c => isVehicle c)) t) }

/-! ## Frames, drawing primitives, and the per-frame pipeline -/

/-- A pixel grid: intensity at integer coordinates.  OpenCV clips
out-of-range writes, so an unbounded grid loses nothing the claims need. -/
def Image : Type := ℤ → ℤ → ℕ

/-- A video frame: `frame.shape[:2]` gives `(height, width)`. -/
structure Frame where
  width : ℕ
  height : ℕ
  img : Image

/-- Model of `cv2.putText` text extent: the pixel region a text line
drawn at origin `org` (bottom-left, OpenCV convention) may touch. -/
def textRegion (org : ℤ × ℤ) (x y : ℤ) : Bool :=
  decide (org.1 ≤ x) && decide (x ≤ org.1 + 1000) &&
  decide (org.2 - 22 ≤ y) && decide (y ≤ org.2)

/-- Model of `cv2.putText`: overwrite the pixels of the text region,
leave every other pixel of the image untouched. -/
def drawText (img : Image) (org : ℤ × ℤ) (_s : String) : Image :=
  fun x y => if textRegion org x y then 255 else img x y

/-- Outline of a box at integer pixel coordinates, as a box annotator
would stroke it. -/
def onOutline (b : Box) (x y : ℤ) : Bool :=
  ((x == ⌊b.x1⌋ || x == ⌊b.x2⌋) && decide (⌊b.y1⌋ ≤ y) && decide (y ≤ ⌊b.y2⌋)) ||
  ((y == ⌊b.y1⌋ || y == ⌊b.y2⌋) && decide (⌊b.x1⌋ ≤ x) && decide (x ≤ ⌊b.x2⌋))

/-- Model of drawing one detection box outline. -/
def drawBoxOutline (img : Image) (b : Box) : Image :=
  fun x y => if onOutline b x y then 128 else img x y

/-- Model of `sv.BoxAnnotator.annotate`: draw the outline of every
detection box; an empty detection set leaves the scene unchanged. -/
def annotateBoxes (img : Image) (boxes : List Box) : Image :=
  boxes.foldl drawBoxOutline img

/-- The label-drawing loop of `process_frame`: one `cv2.putText` per
`(box, label)` pair, at `(int(x1), int(y1) - 10)`. -/
def drawLabelTexts (img : Image) (pairs : List (Box × String)) : Image :=
  pairs.foldl (fun im p => drawText im (⌊p.1.x1⌋, ⌊p.1.y1⌋ - 10) p.2) img

/-- `target_height = 480` in `process_frame`. -/
def target_height : ℕ := 480

/-- `target_width = int(width * target_height / height)`: Python `int()`
truncation of the nonnegative ratio is floor division. -/
def target_width (width height : ℕ) : ℕ := width * target_height / height

/-- Model of `cv2.resize(frame, (w, h))`: a frame with the requested
dimensions, sampling the source grid. -/
def resize (f : Frame) (w h : ℕ) : Frame :=
  { width := w, height := h
    img := fun x y => f.img (x * (f.width : ℤ) / (w : ℤ)) (y * (f.height : ℤ) / (h : ℤ)) }

/-- The downsizing step of `process_frame` (lines 108-114). -/
def downsize (f : Frame) : Frame :=
  resize f (target_width f.width f.height) target_height

/-- The coordinate-rescaling step of `process_frame` (lines 124-140):
when detections are present, multiply x-coordinates by
`width / target_width` and y-coordinates by `height / target_height`,
and rebuild the `Detections` without a `tracker_id`. -/
def scaleDetections (width height tw th : ℕ) (d : Detections) : Detections :=
  if d.xyxy.length = 0 then d
  else
    { xyxy := d.xyxy.map (fun b =>
        { x1 := b.x1 * ((width : ℚ) / (tw : ℚ))
          y1 := b.y1 * ((height : ℚ) / (th : ℚ))
          x2 := b.x2 * ((width : ℚ) / (tw : ℚ))
          y2 := b.y2 * ((height : ℚ) / (th : ℚ)) })
      confidence := d.confidence
      class_id := d.class_id
      tracker_id := none }

/-- Model of Python `"%.2f" % q`: fixed-point rendering with two
fractional digits (round half up; the claims do not depend on the
tie-breaking of the float formatter). -/
def fmtFixed2 (q : ℚ) : String :=
  let n : ℤ := ⌊q * 100 + 1 / 2⌋
  let frac : ℕ := (n % 100).toNat
  toString (n / 100) ++ "." ++ (if frac < 10 then "0" ++ toString frac else toString frac)

/-- Model of Python `"%.1f" % q`: one fractional digit. -/
def fmtFixed1 (q : ℚ) : String :=
  let n : ℤ := ⌊q * 10 + 1 / 2⌋
  toString (n / 10) ++ "." ++ toString (n % 10).toNat

/-- The label built for detection index `i` (lines 151-158): class name
and confidence, prefixed with the tracking id when the `tracker_id`
array is populated (the `hasattr` guard of the source) and long enough. -/
def labelAt (d : Detections) (i : ℕ) : String :=
  match d.tracker_id with
  | some tids =>
      if h : i < tids.length then
        "ID:" ++ toString (tids.get ⟨i, h⟩) ++ " " ++
          className (d.class_id.getD i 0) ++ " " ++ fmtFixed2 (d.confidence.getD i 0)
      else
        className (d.class_id.getD i 0) ++ " " ++ fmtFixed2 (d.confidence.getD i 0)
  | none =>
      className (d.class_id.getD i 0) ++ " " ++ fmtFixed2 (d.confidence.getD i 0)

/-- The `labels` list of `process_frame`: one label per element of
`zip(class_id, confidence)` (Python `zip` truncates at the shorter). -/
def mkLabels (d : Detections) : List String :=
  (List.range (min d.class_id.length d.confidence.length)).map (labelAt d)

/-- `fps = 1.0 / inference_time if inference_time > 0 else 0` (line 174). -/
def fpsVal (inference_time : ℚ) : ℚ :=
  if 0 < inference_time then 1 / inference_time else 0

/-- Lines 175-177: `fps_history.append(fps)`, then
`if len(fps_history) > 30: fps_history.pop(0)`. -/
def pushFps (hist : List ℚ) (fps : ℚ) : List ℚ :=
  if 30 < (hist ++ [fps]).length then (hist ++ [fps]).tail else hist ++ [fps]

/-- The mutable state of a `VehicleDetector` that `process_frame` and
`get_performance_stats` touch. -/
structure DetectorState where
  frame_count : ℕ
  fps_history : List ℚ
deriving Repr, DecidableEq

/-- What one `process_frame` call returns, together with the updated
detector state. -/
structure ProcessResult where
  annotated : Frame
  dets : Detections
  state : DetectorState

/-- The detection part of the pipeline (lines 108-147): downsize for
inference, rescale the model output back to frame coordinates, filter
vehicle classes, and feed non-empty survivors to the tracker. -/
def pipelineDets (tracker : Detections → Detections) (frame : Frame)
    (raw : Detections) : Detections :=
  if 0 < (filter_vehicles (scaleDetections frame.width frame.height
      (downsize frame).width (downsize frame).height raw)).xyxy.length then
    tracker (filter_vehicles (scaleDetections frame.width frame.height
      (downsize frame).width (downsize frame).height raw))
  else
    filter_vehicles (scaleDetections frame.width frame.height
      (downsize frame).width (downsize frame).height raw)

/-- The annotation part of the pipeline (lines 160-188): box outlines
and per-detection labels on `frame.copy()`, then the two fixed overlay
text lines at `(10, 30)` and `(10, 70)`. -/
def annotatedImg (frame : Frame) (vd : Detections)
    (info1 info2 : String) : Image :=
  drawText
    (drawText
      (drawLabelTexts (annotateBoxes frame.img vd.xyxy) (vd.xyxy.zip (mkLabels vd)))
      (10, 30) info1)
    (10, 70) info2

/-- The `info_text` overlay line (line 182). -/
def infoLine1 (vd : Detections) (hist : List ℚ) (frame_count : ℕ) : String :=
  "Vehicles: " ++ toString vd.xyxy.length ++
    " | FPS: " ++ fmtFixed1 (hist.sum / (hist.length : ℚ)) ++
    " | Frame: " ++ toString frame_count

/-- The inference-time overlay line (line 187). -/
def infoLine2 (inference_time : ℚ) (frame : Frame) : String :=
  "Inference: " ++ fmtFixed1 (inference_time * 1000) ++
    "ms | Processed: " ++ toString (downsize frame).width ++ "x" ++
    toString (downsize frame).height

/-- `VehicleDetector.process_frame` (lines 104-190).  The external YOLO
model is represented by `rawDets`, its output on the downsized frame,
and the measured latency by `inference_time`; the external ByteTrack
tracker is the parameter `tracker`, invoked exactly when the filtered
detections are non-empty, as in the source.  The input `frame` is a pure
value: the source annotates `frame.copy()` and never writes to `frame`. -/
def process_frame (tracker : Detections → Detections) (st : DetectorState)
    (frame : Frame) (rawDets : Detections) (inference_time : ℚ) : ProcessResult :=
  let frame_count := st.frame_count + 1
  let vehicle_detections := pipelineDets tracker frame rawDets
  let hist := pushFps st.fps_history (fpsVal inference_time)
  { annotated := { width := frame.width, height := frame.height
                   img := annotatedImg frame vehicle_detections
                     (infoLine1 vehicle_detections hist frame_count)
                     (infoLine2 inference_time frame) }
    dets := vehicle_detections
    state := { frame_count := frame_count, fps_history := hist } }

/-- Minimum of a Python list (`min(fps_history)`, only called non-empty). -/
def listMin : List ℚ → ℚ
  | [] => 0
  | x :: xs => xs.foldl min x

/-- Maximum of a Python list (`max(fps_history)`, only called non-empty). -/
def listMax : List ℚ → ℚ
  | [] => 0
  | x :: xs => xs.foldl max x

/-- `VehicleDetector.get_performance_stats` (lines 192-210), returning
the dict as a key-value list.  The source contains two empty-window
guards in sequence; the second (which would return `total_frames`,
`min_fps`, `max_fps`) is unreachable and is embedded as written. -/
def get_performance_stats (st : DetectorState) : List (String × ℚ) :=
  if st.fps_history.isEmpty then
    [("avg_fps", 0), ("total_frames", 0)]
  else if st.fps_history.isEmpty then
    [("avg_fps", 0), ("total_frames", (st.frame_count : ℚ)),
     ("min_fps", 0), ("max_fps", 0)]
  else
    [("avg_fps", st.fps_history.sum / (st.fps_history.length : ℚ)),
     ("total_frames", (st.frame_count : ℚ)),
     ("min_fps", listMin st.fps_history),
     ("max_fps", listMax st.fps_history)]

/-- Modelled from the spec: the external ByteTrack tracker adapter
(`sv.ByteTrack.update_with_detections`) is not repository code; the spec
says it returns "the same detections augmented with persistent track
identifiers".  This stand-in assigns one id per detection and keeps
every other field. -/
def modelTracker (d : Detections) : Detections :=
  { d with tracker_id := some ((List.range d.xyxy.length).map Int.ofNat) }

/-- A box lies within `[0, w] × [0, h]`, boundary equality allowed. -/
def InBounds (w h : ℕ) (b : Box) : Prop :=
  0 ≤ b.x1 ∧ b.x1 ≤ (w : ℚ) ∧ 0 ≤ b.y1 ∧ b.y1 ≤ (h : ℚ) ∧
  0 ≤ b.x2 ∧ b.x2 ≤ (w : ℚ) ∧ 0 ≤ b.y2 ∧ b.y2 ≤ (h : ℚ)

instance (w h : ℕ) (b : Box) : Decidable (InBounds w h b) := by
  unfold InBounds; infer_instance

/-! ## The single-image entry point `src/qt_gui/python_detector.py` -/

/-- A small JSON value model for what `json.dumps` receives. -/
inductive Json where
  | num (q : ℚ)
  | str (s : String)
  | bool (b : Bool)
  | arr (xs : List Json)
  | obj (fields : List (String × Json))

/-- Keys of a JSON object (empty for non-objects). -/
def jsonKeys : Json → List String
  | .obj fs => fs.map Prod.fst
  | _ => []

/-- Field lookup in a JSON object. -/
def jsonLookup (j : Json) (k : String) : Option Json :=
  match j with
  | .obj fs => fs.lookup k
  | _ => none

/-- The `coco_classes` literal of `detect_frame` (line 65). -/
def coco_classes : List String :=
  ["person", "bicycle", "car", "motorcycle", "airplane", "bus", "train", "truck", "boat"]

/-- `track_id` chosen for detection `i` (lines 49-52): the tracker id
when the `tracker_id` array is populated (the `hasattr` guard) and long
enough, the zero-based index otherwise. -/
def trackIdOf (d : Detections) (i : ℕ) : ℤ :=
  match d.tracker_id with
  | some tids => if h : i < tids.length then tids.get ⟨i, h⟩ else (i : ℤ)
  | none => (i : ℤ)

/-- `confidence` chosen for detection `i` (lines 54-57); default `0.5`. -/
def confOf (d : Detections) (i : ℕ) : ℚ :=
  if h : i < d.confidence.length then d.confidence.get ⟨i, h⟩ else 1 / 2

/-- `class_id` chosen for detection `i` (lines 59-62); default `2` (car). -/
def classIdOf (d : Detections) (i : ℕ) : ℕ :=
  if h : i < d.class_id.length then d.class_id.get ⟨i, h⟩ else 2

/-- `class_name` from the COCO list (lines 64-69). -/
def classNameOf (cid : ℕ) : String :=
  if h : cid < coco_classes.length then coco_classes.get ⟨cid, h⟩
  else "class_" ++ toString cid

/-- The bounding box serialised for detection `i`. -/
def bboxOf (d : Detections) (i : ℕ) : Box := d.xyxy.getD i ⟨0, 0, 0, 0⟩

/-- One entry of the `results` list of `detect_frame` (lines 71-78). -/
def mkEntry (d : Detections) (i : ℕ) : Json :=
  .obj [("bbox", .arr [.num (bboxOf d i).x1, .num (bboxOf d i).y1,
                       .num (bboxOf d i).x2, .num (bboxOf d i).y2]),
        ("track_id", .num ((trackIdOf d i : ℤ) : ℚ)),
        ("confidence", .num (confOf d i)),
        ("class_id", .num ((classIdOf d i : ℕ) : ℚ)),
        ("class_name", .str (classNameOf (classIdOf d i)))]

/-- The `results` list of `detect_frame` (lines 46-78): one entry per
element of `enumerate(detections.xyxy)`, guarded by `len(detections) > 0`. -/
def buildResults (d : Detections) : List Json :=
  if 0 < d.xyxy.length then (List.range d.xyxy.length).map (mkEntry d) else []

/-- `detect_frame` (lines 21-83).  `initRes` models the fallible
`VehicleDetector(...)` construction, `img` the result of `cv2.imread`
(`none` = unreadable path), and `run` the fallible
`detector.process_frame(frame)` call; any raised exception is the
`.error` case and lands in the `except` clause, which emits the error
object.  An unreadable image emits the dedicated error object of
line 40 (which carries no `success` key, as in the source). -/
def detect_frame (initRes : Except String Unit) (img : Option Frame)
    (run : Frame → Except String (Frame × Detections)) : Json :=
  match initRes with
  | .error e => .obj [("error", .str e), ("success", .bool false)]
  | .ok _ =>
    match img with
    | none => .obj [("error", .str "Could not load image")]
    | some f =>
      match run f with
      | .error e => .obj [("error", .str e), ("success", .bool false)]
      | .ok (_, detections) =>
          .obj [("detections", .arr (buildResults detections)),
                ("success", .bool true)]

/-! ## Library lemmas about the embedded operations -/

@[simp] theorem applyMask_nil_left (xs : List α) : applyMask [] xs = [] := by
  cases xs <;> rfl

@[simp] theorem applyMask_nil_right (m : List Bool) : applyMask m ([] : List α) = [] := by
  cases m with
  | nil => rfl
  | cons b m => cases b <;> rfl

@[simp] theorem applyMask_true_cons (m : List Bool) (x : α) (xs : List α) :
    applyMask (true :: m) (x :: xs) = x :: applyMask m xs := rfl

@[simp] theorem applyMask_false_cons (m : List Bool) (x : α) (xs : List α) :
    applyMask (false :: m) (x :: xs) = applyMask m xs := rfl

/-- Masking a list with the mask computed from itself is `List.filter`. -/
theorem applyMask_map_self (p : α → Bool) (xs : List α) :
    applyMask (xs.map p) xs = xs.filter p := by
  induction xs with
  | nil => simp
  | cons x xs ih =>
    cases hp : p x <;> simp [List.filter_cons, hp, ih]

/-- The masked list is never longer than the number of `true` entries in
the mask. -/
theorem length_applyMask_le_count (m : List Bool) (xs : List α) :
    (applyMask m xs).length ≤ m.count true := by
  induction m generalizing xs with
  | nil => simp
  | cons b m ih =>
    cases xs with
    | nil => simp
    | cons x xs =>
      cases b with
      | true => simpa [List.count_cons] using Nat.succ_le_succ (ih xs)
      | false =>
        refine le_trans (ih xs) ?_
        simp [List.count_cons]

/-- Masking with an all-`true` mask keeps the first `m.length` elements. -/
theorem applyMask_all_true (m : List Bool) (xs : List α)
    (h : ∀ b ∈ m, b = true) : applyMask m xs = xs.take m.length := by
  induction m generalizing xs with
  | nil => simp
  | cons b m ih =>
    have hb : b = true := h b (by simp)
    cases xs with
    | nil => simp
    | cons x xs =>
      subst hb
      simp [ih xs (fun b hbm => h b (by simp [hbm]))]

/-- Every element of the masked list comes from the original list. -/
theorem mem_of_mem_applyMask {m : List Bool} {xs : List α} {x : α}
    (h : x ∈ applyMask m xs) : x ∈ xs := by
  induction m generalizing xs with
  | nil => simp at h
  | cons b m ih =>
    cases xs with
    | nil => simp at h
    | cons y ys =>
      cases b with
      | true =>
        rcases (by simpa using h : x = y ∨ x ∈ applyMask m ys) with h1 | h1
        · simp [h1]
        · exact List.mem_cons_of_mem _ (ih h1)
      | false => exact List.mem_cons_of_mem _ (ih (by simpa using h))

theorem filter_vehicles_def (d : Detections) :
    filter_vehicles d =
      if d.xyxy.length = 0 then d
      else
        { xyxy := applyMask (d.class_id.map (fun c => isVehicle c)) d.xyxy
          confidence := applyMask (d.class_id.map (fun c => isVehicle c)) d.confidence
          class_id := applyMask (d.class_id.map (fun c => isVehicle c)) d.class_id
          tracker_id := d.tracker_id.map
            (fun t => applyMask (d.class_id.map (fun c => isVehicle c)) t) } := rfl

/-- The number of `true` entries in a mask computed by a predicate is the
length of the corresponding filtered list. -/
theorem count_true_map (p : α → Bool) (l : List α) :
    (l.map p).count true = (l.filter p).length := by
  induction l with
  | nil => simp
  | cons x xs ih =>
    cases hp : p x <;> simp [List.filter_cons, hp, List.count_cons, ih]

/-- Helper: the second application of the mask leaves a field unchanged,
because the second mask is all-`true` and at least as long as the field. -/
theorem applyMask_second (p : α → Bool) (orig : List α) {β : Type}
    (field : List β) :
    applyMask ((orig.filter p).map p) (applyMask (orig.map p) field)
      = applyMask (orig.map p) field := by
  have hall : ∀ b ∈ (orig.filter p).map p, b = true := by
    intro b hb
    rcases List.mem_map.mp hb with ⟨a, ha, rfl⟩
    exact List.of_mem_filter ha
  rw [applyMask_all_true _ _ hall]
  refine List.take_of_length_le ?_
  calc (applyMask (orig.map p) field).length
      ≤ (orig.map p).count true := length_applyMask_le_count _ _
    _ = ((orig.filter p).map p).length := by
        rw [count_true_map]; simp

/-- Core of C4: `filter_vehicles` is idempotent. -/
theorem filter_vehicles_idem (d : Detections) :
    filter_vehicles (filter_vehicles d) = filter_vehicles d := by
  rw [filter_vehicles_def (filter_vehicles d)]
  by_cases h1 : (filter_vehicles d).xyxy.length = 0
  · rw [if_pos h1]
  · rw [if_neg h1]
    by_cases h0 : d.xyxy.length = 0
    · have hd : filter_vehicles d = d := by rw [filter_vehicles_def, if_pos h0]
      rw [hd] at h1
      exact absurd h0 h1
    · have hfd : filter_vehicles d =
          { xyxy := applyMask (d.class_id.map (fun c => isVehicle c)) d.xyxy
            confidence := applyMask (d.class_id.map (fun c => isVehicle c)) d.confidence
            class_id := applyMask (d.class_id.map (fun c => isVehicle c)) d.class_id
            tracker_id := d.tracker_id.map
              (fun t => applyMask (d.class_id.map (fun c => isVehicle c)) t) } := by
        rw [filter_vehicles_def, if_neg h0]
      have hcid : (filter_vehicles d).class_id
          = d.class_id.filter (fun c => isVehicle c) := by
        rw [hfd]
        exact applyMask_map_self _ d.class_id
      have hmask : (filter_vehicles d).class_id.map (fun c => isVehicle c)
          = (d.class_id.filter (fun c => isVehicle c)).map (fun c => isVehicle c) := by
        rw [hcid]
      rw [hmask]
      have hx : applyMask ((d.class_id.filter (fun c => isVehicle c)).map (fun c => isVehicle c))
            (filter_vehicles d).xyxy = (filter_vehicles d).xyxy := by
        rw [hfd]; exact applyMask_second _ d.class_id d.xyxy
      have hc : applyMask ((d.class_id.filter (fun c => isVehicle c)).map (fun c => isVehicle c))
            (filter_vehicles d).confidence = (filter_vehicles d).confidence := by
        rw [hfd]; exact applyMask_second _ d.class_id d.confidence
      have hci : applyMask ((d.class_id.filter (fun c => isVehicle c)).map (fun c => isVehicle c))
            (filter_vehicles d).class_id = (filter_vehicles d).class_id := by
        rw [hfd]; exact applyMask_second _ d.class_id d.class_id
      have ht : (filter_vehicles d).tracker_id.map
            (fun t => applyMask
              ((d.class_id.filter (fun c => isVehicle c)).map (fun c => isVehicle c)) t)
          = (filter_vehicles d).tracker_id := by
        rw [hfd]
        cases htr : d.tracker_id with
        | none => rfl
        | some t =>
          simp only [Option.map_some]
          exact congrArg some (applyMask_second _ d.class_id t)
      rw [hx, hc, hci, ht]

theorem modelTracker_xyxy (d : Detections) : (modelTracker d).xyxy = d.xyxy := rfl

/-- The filter step only removes boxes, it never alters one. -/
theorem filter_vehicles_xyxy_subset (d : Detections) :
    ∀ b ∈ (filter_vehicles d).xyxy, b ∈ d.xyxy := by
  intro b hb
  rw [filter_vehicles_def] at hb
  by_cases h0 : d.xyxy.length = 0
  · rw [if_pos h0] at hb; exact hb
  · rw [if_neg h0] at hb; exact mem_of_mem_applyMask hb

theorem pushFps_length_le (hist : List ℚ) (x : ℚ) (h : hist.length ≤ 30) :
    (pushFps hist x).length ≤ 30 := by
  unfold pushFps
  by_cases h1 : 30 < (hist ++ [x]).length
  · rw [if_pos h1]
    simp only [List.length_tail, List.length_append, List.length_singleton]
    omega
  · rw [if_neg h1]
    simp only [List.length_append, List.length_singleton] at h1 ⊢
    omega

theorem pushFps_of_full (hist : List ℚ) (x : ℚ) (h : hist.length = 30) :
    pushFps hist x = hist.tail ++ [x] := by
  unfold pushFps
  rw [if_pos (by simp [h])]
  cases hist with
  | nil => simp at h
  | cons a rest => simp

theorem pushFps_ne_nil (hist : List ℚ) (x : ℚ) : pushFps hist x ≠ [] := by
  unfold pushFps
  by_cases h1 : 30 < (hist ++ [x]).length
  · rw [if_pos h1]
    intro hc
    have hlen := congrArg List.length hc
    simp only [List.length_tail, List.length_append, List.length_singleton,
      List.length_nil] at hlen
    simp only [List.length_append, List.length_singleton] at h1
    omega
  · rw [if_neg h1]
    simp

theorem getLast?_pushFps (hist : List ℚ) (x : ℚ) :
    (pushFps hist x).getLast? = some x := by
  unfold pushFps
  by_cases h1 : 30 < (hist ++ [x]).length
  · rw [if_pos h1]
    cases hist with
    | nil => simp at h1
    | cons a rest =>
      simp only [List.cons_append, List.tail_cons]
      exact List.getLast?_concat rest
  · rw [if_neg h1]
    exact List.getLast?_concat hist

theorem process_frame_dets (tracker : Detections → Detections)
    (st : DetectorState) (frame : Frame) (raw : Detections) (t : ℚ) :
    (process_frame tracker st frame raw t).dets = pipelineDets tracker frame raw := rfl

theorem process_frame_state (tracker : Detections → Detections)
    (st : DetectorState) (frame : Frame) (raw : Detections) (t : ℚ) :
    (process_frame tracker st frame raw t).state
      = ⟨st.frame_count + 1, pushFps st.fps_history (fpsVal t)⟩ := rfl

theorem process_frame_annotated_img (tracker : Detections → Detections)
    (st : DetectorState) (frame : Frame) (raw : Detections) (t : ℚ) :
    (process_frame tracker st frame raw t).annotated.img
      = annotatedImg frame (pipelineDets tracker frame raw)
          (infoLine1 (pipelineDets tracker frame raw)
            (pushFps st.fps_history (fpsVal t)) (st.frame_count + 1))
          (infoLine2 t frame) := rfl

/-- A pixel outside the declared text region is untouched by `drawText`. -/
theorem drawText_outside (img : Image) (org : ℤ × ℤ) (s : String) (x y : ℤ)
    (h : textRegion org x y = false) : drawText img org s x y = img x y := by
  simp [drawText, h]

/-- With an empty detection set, the annotation step only writes the two
fixed overlay text regions. -/
theorem annotatedImg_empty (frame : Frame) (vd : Detections)
    (info1 info2 : String) (x y : ℤ)
    (hvd : vd.xyxy = [])
    (h1 : textRegion (10, 30) x y = false)
    (h2 : textRegion (10, 70) x y = false) :
    annotatedImg frame vd info1 info2 x y = frame.img x y := by
  unfold annotatedImg
  rw [drawText_outside _ _ _ _ _ h2, drawText_outside _ _ _ _ _ h1]
  rw [hvd]
  simp [drawLabelTexts, annotateBoxes]

/-- Boxes in inference-resolution bounds land in frame bounds after
rescaling. -/
theorem scaleDetections_bounds (w h tw th : ℕ) (d : Detections)
    (htw : 0 < tw) (hth : 0 < th)
    (hd : ∀ b ∈ d.xyxy, InBounds tw th b) :
    ∀ b ∈ (scaleDetections w h tw th d).xyxy, InBounds w h b := by
  intro b hb
  unfold scaleDetections at hb
  by_cases h0 : d.xyxy.length = 0
  · rw [if_pos h0] at hb
    have hnil : d.xyxy = [] := List.length_eq_zero.mp h0
    rw [hnil] at hb
    exact absurd hb (List.not_mem_nil b)
  · rw [if_neg h0] at hb
    simp only [List.mem_map] at hb
    obtain ⟨b0, hb0, rfl⟩ := hb
    obtain ⟨hx1a, hx1b, hy1a, hy1b, hx2a, hx2b, hy2a, hy2b⟩ := hd b0 hb0
    have htwQ : ((tw : ℚ)) ≠ 0 := Nat.cast_ne_zero.mpr (Nat.pos_iff_ne_zero.mp htw)
    have hthQ : ((th : ℚ)) ≠ 0 := Nat.cast_ne_zero.mpr (Nat.pos_iff_ne_zero.mp hth)
    have hsx : (0 : ℚ) ≤ (w : ℚ) / (tw : ℚ) := div_nonneg (by positivity) (by positivity)
    have hsy : (0 : ℚ) ≤ (h : ℚ) / (th : ℚ) := div_nonneg (by positivity) (by positivity)
    have hxw : ((tw : ℚ)) * ((w : ℚ) / (tw : ℚ)) = (w : ℚ) := by
      field_simp
    have hyh : ((th : ℚ)) * ((h : ℚ) / (th : ℚ)) = (h : ℚ) := by
      field_simp
    refine ⟨mul_nonneg hx1a hsx, ?_, mul_nonneg hy1a hsy, ?_,
            mul_nonneg hx2a hsx, ?_, mul_nonneg hy2a hsy, ?_⟩
    · calc b0.x1 * ((w : ℚ) / (tw : ℚ))
          ≤ (tw : ℚ) * ((w : ℚ) / (tw : ℚ)) := mul_le_mul_of_nonneg_right hx1b hsx
        _ = (w : ℚ) := hxw
    · calc b0.y1 * ((h : ℚ) / (th : ℚ))
          ≤ (th : ℚ) * ((h : ℚ) / (th : ℚ)) := mul_le_mul_of_nonneg_right hy1b hsy
        _ = (h : ℚ) := hyh
    · calc b0.x2 * ((w : ℚ) / (tw : ℚ))
          ≤ (tw : ℚ) * ((w : ℚ) / (tw : ℚ)) := mul_le_mul_of_nonneg_right hx2b hsx
        _ = (w : ℚ) := hxw
    · calc b0.y2 * ((h : ℚ) / (th : ℚ))
          ≤ (th : ℚ) * ((h : ℚ) / (th : ℚ)) := mul_le_mul_of_nonneg_right hy2b hsy
        _ = (h : ℚ) := hyh

theorem jsonKeys_mkEntry (d : Detections) (i : ℕ) :
    jsonKeys (mkEntry d i)
      = ["bbox", "track_id", "confidence", "class_id", "class_name"] := rfl

/-- When the tracker ids are populated and cover index `i`, the label
takes the `"ID:..."` form. -/
theorem labelAt_of_some (d : Detections) (i : ℕ) (tids : List ℤ)
    (htid : d.tracker_id = some tids) (hit : i < tids.length) :
    labelAt d i = "ID:" ++ toString (tids.get ⟨i, hit⟩) ++ " " ++
      className (d.class_id.getD i 0) ++ " " ++ fmtFixed2 (d.confidence.getD i 0) := by
  unfold labelAt
  rw [htid]
  show (if h : i < tids.length then
      "ID:" ++ toString (tids.get ⟨i, h⟩) ++ " " ++
        className (d.class_id.getD i 0) ++ " " ++ fmtFixed2 (d.confidence.getD i 0)
    else
      className (d.class_id.getD i 0) ++ " " ++ fmtFixed2 (d.confidence.getD i 0)) = _
  rw [dif_pos hit]

/-! ## Claim theorems -/

/-- C4: `filter_vehicles` is idempotent — applying the class filter to an
already-filtered detection set yields the same set. -/
theorem C4_filter_vehicles_idempotent (d : Detections) :
    filter_vehicles (filter_vehicles d) = filter_vehicles d :=
  filter_vehicles_idem d

/-- C5: `process_frame` downsizes to a copy whose height is exactly the
fixed target 480 and whose width is `width * 480 / height` (the integer
truncation of the aspect-preserving ratio, characterised here as the
exact floor: `width' * height ≤ width * 480 < (width' + 1) * height`),
for every input height including those below 480. -/
theorem C5_downsize_dimensions (f : Frame) (h : 0 < f.height) :
    (downsize f).height = 480 ∧
    (downsize f).width = f.width * 480 / f.height ∧
    (downsize f).width * f.height ≤ f.width * 480 ∧
    f.width * 480 < ((downsize f).width + 1) * f.height := by
  have hw : (downsize f).width = f.width * 480 / f.height := rfl
  refine ⟨rfl, rfl, ?_, ?_⟩
  · rw [hw]
    exact Nat.div_mul_le_self (f.width * 480) f.height
  · rw [hw]
    have hdm := Nat.div_add_mod (f.width * 480) f.height
    have hmod : (f.width * 480) % f.height < f.height := Nat.mod_lt _ h
    have hexp : (f.width * 480 / f.height + 1) * f.height
        = f.height * (f.width * 480 / f.height) + f.height := by ring
    omega

/-- C5 witness: a 320x240 frame (height below 480) is resized to
height 480 and width `320 * 480 / 240 = 640`. -/
theorem C5_downsize_dimensions_witness :
    0 < (Frame.mk 320 240 (fun _ _ => 0)).height ∧
    ((downsize (Frame.mk 320 240 (fun _ _ => 0))).height = 480 ∧
     (downsize (Frame.mk 320 240 (fun _ _ => 0))).width = 320 * 480 / 240 ∧
     (downsize (Frame.mk 320 240 (fun _ _ => 0))).width * 240 ≤ 320 * 480 ∧
     320 * 480 < ((downsize (Frame.mk 320 240 (fun _ _ => 0))).width + 1) * 240) :=
  ⟨by decide, C5_downsize_dimensions (Frame.mk 320 240 (fun _ _ => 0)) (by decide)⟩

/-- C7: evaluation of `get_performance_stats` at the failing input (a
fresh detector, empty latency window): the returned dict is the literal
`{"avg_fps": 0, "total_frames": 0}` — it carries no `min_fps` or
`max_fps` key, although the claim (and the unreachable second branch of
the source, as well as the unconditional `stats['min_fps']` access in
`main`) require the minimum and maximum to be returned always. -/
theorem C7_empty_stats_missing_min_max :
    get_performance_stats ⟨0, []⟩ = [("avg_fps", 0), ("total_frames", 0)] ∧
    (get_performance_stats ⟨0, []⟩).lookup "min_fps" = none ∧
    (get_performance_stats ⟨0, []⟩).lookup "max_fps" = none := by
  refine ⟨rfl, rfl, rfl⟩

/-- C8: the FPS computation is guarded against division by zero — with a
measured inference time of zero, the value recorded in the window for
this frame (its newest entry) is `0`, not an error. -/
theorem C8_fps_zero_guard (tracker : Detections → Detections)
    (st : DetectorState) (frame : Frame) (raw : Detections) :
    (process_frame tracker st frame raw 0).state.fps_history.getLast? = some 0 := by
  rw [process_frame_state]
  have h0 : fpsVal 0 = 0 := by simp [fpsVal]
  simpa [h0] using getLast?_pushFps st.fps_history (fpsVal 0)

/-- C3: the rolling window never exceeds 30 entries after a call; when a
31st entry is appended the evicted entry is the oldest (the head), and
the average reported afterwards by `get_performance_stats` is the
arithmetic mean of exactly the remaining entries. -/
theorem C3_latency_window (tracker : Detections → Detections)
    (st : DetectorState) (frame : Frame) (raw : Detections) (t : ℚ)
    (h : st.fps_history.length ≤ 30) :
    (process_frame tracker st frame raw t).state.fps_history.length ≤ 30 ∧
    (st.fps_history.length = 30 →
      (process_frame tracker st frame raw t).state.fps_history
        = st.fps_history.tail ++ [fpsVal t]) ∧
    (get_performance_stats (process_frame tracker st frame raw t).state).lookup "avg_fps"
      = some ((process_frame tracker st frame raw t).state.fps_history.sum /
          ((process_frame tracker st frame raw t).state.fps_history.length : ℚ)) := by
  rw [process_frame_state]
  refine ⟨pushFps_length_le _ _ h, fun h30 => pushFps_of_full _ _ h30, ?_⟩
  have hne : pushFps st.fps_history (fpsVal t) ≠ [] := pushFps_ne_nil _ _
  have hemp : (pushFps st.fps_history (fpsVal t)).isEmpty = false := by
    simpa [List.isEmpty_iff] using hne
  simp [get_performance_stats, hemp, List.lookup]

/-- C3 witness: a full window of 30 entries stays at 30 entries, the
head is evicted, and the reported average is the mean of the window. -/
theorem C3_latency_window_witness :
    (DetectorState.mk 5 (List.replicate 30 1)).fps_history.length ≤ 30 ∧
    ((process_frame modelTracker (DetectorState.mk 5 (List.replicate 30 1))
        (Frame.mk 640 480 (fun _ _ => 0)) (Detections.mk [] [] [] none) 1).state.fps_history.length ≤ 30 ∧
     ((DetectorState.mk 5 (List.replicate 30 1)).fps_history.length = 30 →
       (process_frame modelTracker (DetectorState.mk 5 (List.replicate 30 1))
          (Frame.mk 640 480 (fun _ _ => 0)) (Detections.mk [] [] [] none) 1).state.fps_history
         = (DetectorState.mk 5 (List.replicate 30 1)).fps_history.tail ++ [fpsVal 1]) ∧
     (get_performance_stats (process_frame modelTracker (DetectorState.mk 5 (List.replicate 30 1))
          (Frame.mk 640 480 (fun _ _ => 0)) (Detections.mk [] [] [] none) 1).state).lookup "avg_fps"
       = some ((process_frame modelTracker (DetectorState.mk 5 (List.replicate 30 1))
            (Frame.mk 640 480 (fun _ _ => 0)) (Detections.mk [] [] [] none) 1).state.fps_history.sum /
          ((process_frame modelTracker (DetectorState.mk 5 (List.replicate 30 1))
            (Frame.mk 640 480 (fun _ _ => 0)) (Detections.mk [] [] [] none) 1).state.fps_history.length : ℚ))) :=
  ⟨by decide,
   C3_latency_window modelTracker (DetectorState.mk 5 (List.replicate 30 1))
     (Frame.mk 640 480 (fun _ _ => 0)) (Detections.mk [] [] [] none) 1 (by decide)⟩

/-- C2: when the pipeline yields zero detections, the annotated frame is
pixel-identical to the input frame outside the two fixed overlay text
regions (the FPS/frame-count line at `(10, 30)` and the inference-time
line at `(10, 70)`); the input frame, a pure value annotated only via
`frame.copy()`, is untouched. -/
theorem C2_zero_detections_overlay_only (tracker : Detections → Detections)
    (st : DetectorState) (frame : Frame) (raw : Detections) (t : ℚ)
    (h : (process_frame tracker st frame raw t).dets.xyxy = [])
    (x y : ℤ)
    (h1 : textRegion (10, 30) x y = false)
    (h2 : textRegion (10, 70) x y = false) :
    (process_frame tracker st frame raw t).annotated.img x y = frame.img x y := by
  rw [process_frame_dets] at h
  rw [process_frame_annotated_img]
  exact annotatedImg_empty frame _ _ _ x y h h1 h2

/-- C2 witness: a frame with no raw detections is returned with its
pixel at `(0, 0)` (outside both overlay regions) unchanged. -/
theorem C2_zero_detections_overlay_only_witness :
    (process_frame modelTracker (DetectorState.mk 0 [])
        (Frame.mk 640 480 (fun _ _ => 7)) (Detections.mk [] [] [] none) 1).dets.xyxy = [] ∧
    textRegion (10, 30) 0 0 = false ∧
    textRegion (10, 70) 0 0 = false ∧
    (process_frame modelTracker (DetectorState.mk 0 [])
        (Frame.mk 640 480 (fun _ _ => 7)) (Detections.mk [] [] [] none) 1).annotated.img 0 0
      = (Frame.mk 640 480 (fun _ _ => 7)).img 0 0 :=
  ⟨by decide, by decide, by decide,
   C2_zero_detections_overlay_only modelTracker (DetectorState.mk 0 [])
     (Frame.mk 640 480 (fun _ _ => 7)) (Detections.mk [] [] [] none) 1
     (by decide) 0 0 (by decide) (by decide)⟩

/-- C1: every bounding box in the detection set returned by
`process_frame` lies within `[0, frame_width] × [0, frame_height]` of
the original frame, boundary equality allowed — given that the model
output lies within the inference (downsized) resolution
`[0, target_width] × [0, 480]` and the external tracker does not move a
box out of frame bounds (it returns the same detections with ids). -/
theorem C1_boxes_in_frame (tracker : Detections → Detections)
    (st : DetectorState) (frame : Frame) (raw : Detections) (t : ℚ)
    (htw : 0 < target_width frame.width frame.height)
    (hraw : ∀ b ∈ raw.xyxy, InBounds (target_width frame.width frame.height) target_height b)
    (htr : ∀ d, (∀ b ∈ d.xyxy, InBounds frame.width frame.height b) →
        ∀ b ∈ (tracker d).xyxy, InBounds frame.width frame.height b) :
    ∀ b ∈ (process_frame tracker st frame raw t).dets.xyxy,
      InBounds frame.width frame.height b := by
  intro b hb
  rw [process_frame_dets] at hb
  unfold pipelineDets at hb
  have hscaled : ∀ b2 ∈ (scaleDetections frame.width frame.height
      (downsize frame).width (downsize frame).height raw).xyxy,
      InBounds frame.width frame.height b2 := by
    refine scaleDetections_bounds frame.width frame.height _ _ raw htw ?_ ?_
    · show 0 < target_height
      decide
    · exact hraw
  have hfilt : ∀ b2 ∈ (filter_vehicles (scaleDetections frame.width frame.height
      (downsize frame).width (downsize frame).height raw)).xyxy,
      InBounds frame.width frame.height b2 := by
    intro b2 hb2
    exact hscaled b2 (filter_vehicles_xyxy_subset _ b2 hb2)
  by_cases hc : 0 < (filter_vehicles (scaleDetections frame.width frame.height
      (downsize frame).width (downsize frame).height raw)).xyxy.length
  · rw [if_pos hc] at hb
    exact htr _ hfilt b hb
  · rw [if_neg hc] at hb
    exact hfilt b hb

/-- C1 witness: a 640x960 frame is downsized to 320x480; a raw box
filling the downsized frame is rescaled to exactly the frame bounds and
survives filtering and tracking in bounds. -/
theorem C1_boxes_in_frame_witness :
    0 < target_width 640 960 ∧ InBounds 640 960 ⟨0, 0, 640, 960⟩ := by
  refine ⟨by decide, ?_⟩
  refine C1_boxes_in_frame modelTracker (DetectorState.mk 0 [])
    (Frame.mk 640 960 (fun _ _ => 0))
    (Detections.mk [⟨0, 0, 320, 480⟩] [9/10] [2] none) 1
    (by decide) ?_
    (fun d hd b hb => hd b (by simpa [modelTracker_xyxy] using hb))
    ⟨0, 0, 640, 960⟩ ?_
  · intro b hb
    rw [List.mem_singleton] at hb
    subst hb
    norm_num [InBounds, target_width, target_height]
  · have hxy : (process_frame modelTracker (DetectorState.mk 0 [])
        (Frame.mk 640 960 (fun _ _ => 0))
        (Detections.mk [⟨0, 0, 320, 480⟩] [9/10] [2] none) 1).dets.xyxy
        = [⟨0, 0, 640, 960⟩] := by
      rw [process_frame_dets]
      have hveh : isVehicle 2 = true := rfl
      norm_num [pipelineDets, scaleDetections, filter_vehicles, downsize, resize,
        target_width, target_height, hveh, modelTracker]
    rw [hxy]
    exact List.mem_singleton.mpr rfl

/-- C6: every label drawn by `process_frame` for a surviving (filtered,
tracked) detection has the form `"ID:<track> <class> <confidence>"` —
given that the external tracker populates `tracker_id` with one id per
returned detection, as its contract states. -/
theorem C6_labels_carry_id_class_conf (tracker : Detections → Detections)
    (st : DetectorState) (frame : Frame) (raw : Detections) (t : ℚ)
    (htr : ∀ d, ∃ tids, (tracker d).tracker_id = some tids ∧
        tids.length = (tracker d).xyxy.length) :
    ∀ i, i < ((process_frame tracker st frame raw t).dets.xyxy.zip
        (mkLabels (process_frame tracker st frame raw t).dets)).length →
      ∃ tid : ℤ,
        (((process_frame tracker st frame raw t).dets.xyxy.zip
            (mkLabels (process_frame tracker st frame raw t).dets)).getD i (⟨0, 0, 0, 0⟩, "")).2
          = "ID:" ++ toString tid ++ " " ++
              className ((process_frame tracker st frame raw t).dets.class_id.getD i 0) ++
              " " ++ fmtFixed2 ((process_frame tracker st frame raw t).dets.confidence.getD i 0) := by
  intro i hi
  rw [process_frame_dets] at hi ⊢
  rw [List.length_zip] at hi
  have hix : i < (pipelineDets tracker frame raw).xyxy.length :=
    lt_of_lt_of_le hi (min_le_left _ _)
  have hil : i < (mkLabels (pipelineDets tracker frame raw)).length :=
    lt_of_lt_of_le hi (min_le_right _ _)
  by_cases hc : 0 < (filter_vehicles (scaleDetections frame.width frame.height
      (downsize frame).width (downsize frame).height raw)).xyxy.length
  · have hvd : pipelineDets tracker frame raw
        = tracker (filter_vehicles (scaleDetections frame.width frame.height
            (downsize frame).width (downsize frame).height raw)) := by
      unfold pipelineDets
      rw [if_pos hc]
    obtain ⟨tids, htid, htlen⟩ := htr (filter_vehicles (scaleDetections frame.width
      frame.height (downsize frame).width (downsize frame).height raw))
    rw [← hvd] at htid htlen
    have hit : i < tids.length := by rw [htlen]; exact hix
    refine ⟨tids.get ⟨i, hit⟩, ?_⟩
    have hzlen : i < ((pipelineDets tracker frame raw).xyxy.zip
        (mkLabels (pipelineDets tracker frame raw))).length := by
      rw [List.length_zip]
      exact hi
    have hsnd : (((pipelineDets tracker frame raw).xyxy.zip
        (mkLabels (pipelineDets tracker frame raw))).getD i (⟨0, 0, 0, 0⟩, "")).2
        = (mkLabels (pipelineDets tracker frame raw)).getD i "" := by
      rw [List.getD_eq_getElem _ _ hzlen, List.getElem_zip, List.getD_eq_getElem _ _ hil]
    rw [hsnd, List.getD_eq_getElem _ _ hil]
    simp only [mkLabels, List.getElem_map, List.getElem_range]
    exact labelAt_of_some _ i tids htid hit
  · have hvd : pipelineDets tracker frame raw
        = filter_vehicles (scaleDetections frame.width frame.height
            (downsize frame).width (downsize frame).height raw) := by
      unfold pipelineDets
      rw [if_neg hc]
    rw [hvd] at hix
    exact absurd hix (by omega)

/-- C6 witness: with one surviving car detection and the modelled
tracker, the single drawn label is of the `"ID:<track> <class>
<confidence>"` form. -/
theorem C6_labels_carry_id_class_conf_witness :
    0 < ((process_frame modelTracker (DetectorState.mk 0 [])
        (Frame.mk 640 960 (fun _ _ => 0))
        (Detections.mk [⟨0, 0, 320, 480⟩] [9/10] [2] none) 1).dets.xyxy.zip
          (mkLabels (process_frame modelTracker (DetectorState.mk 0 [])
            (Frame.mk 640 960 (fun _ _ => 0))
            (Detections.mk [⟨0, 0, 320, 480⟩] [9/10] [2] none) 1).dets)).length ∧
    ∃ tid : ℤ,
      (((process_frame modelTracker (DetectorState.mk 0 [])
          (Frame.mk 640 960 (fun _ _ => 0))
          (Detections.mk [⟨0, 0, 320, 480⟩] [9/10] [2] none) 1).dets.xyxy.zip
            (mkLabels (process_frame modelTracker (DetectorState.mk 0 [])
              (Frame.mk 640 960 (fun _ _ => 0))
              (Detections.mk [⟨0, 0, 320, 480⟩] [9/10] [2] none) 1).dets)).getD 0 (⟨0, 0, 0, 0⟩, "")).2
        = "ID:" ++ toString tid ++ " " ++
            className ((process_frame modelTracker (DetectorState.mk 0 [])
              (Frame.mk 640 960 (fun _ _ => 0))
              (Detections.mk [⟨0, 0, 320, 480⟩] [9/10] [2] none) 1).dets.class_id.getD 0 0) ++
            " " ++ fmtFixed2 ((process_frame modelTracker (DetectorState.mk 0 [])
              (Frame.mk 640 960 (fun _ _ => 0))
              (Detections.mk [⟨0, 0, 320, 480⟩] [9/10] [2] none) 1).dets.confidence.getD 0 0) := by
  constructor
  · decide
  · exact C6_labels_carry_id_class_conf modelTracker (DetectorState.mk 0 [])
      (Frame.mk 640 960 (fun _ _ => 0))
      (Detections.mk [⟨0, 0, 320, 480⟩] [9/10] [2] none) 1
      (fun d => ⟨(List.range d.xyxy.length).map Int.ofNat, rfl, by simp [modelTracker]⟩)
      0 (by decide)

/-- C9: `detect_frame` always emits either a JSON object with a
`detections` list whose entries carry exactly the keys bbox, track_id,
confidence, class_id and class_name, or a JSON error object; an
unreadable image path, a failed detector construction and an internal
exception all yield the error object. -/
theorem C9_detect_frame_json_shape (initRes : Except String Unit)
    (img : Option Frame) (run : Frame → Except String (Frame × Detections))
    (f : Frame) (e : String) :
    ((∃ e2, jsonLookup (detect_frame initRes img run) "error" = some (.str e2)) ∨
     (∃ entries, jsonLookup (detect_frame initRes img run) "detections"
          = some (.arr entries) ∧
        ∀ j ∈ entries,
          jsonKeys j = ["bbox", "track_id", "confidence", "class_id", "class_name"])) ∧
    (∃ e2, jsonLookup (detect_frame initRes none run) "error" = some (.str e2)) ∧
    (∃ e2, jsonLookup (detect_frame initRes (some f) (fun _ => Except.error e)) "error"
        = some (.str e2)) := by
  refine ⟨?_, ?_, ?_⟩
  · cases initRes with
    | error e0 => exact Or.inl ⟨e0, rfl⟩
    | ok u =>
      cases img with
      | none => exact Or.inl ⟨"Could not load image", rfl⟩
      | some f2 =>
        cases hrun : run f2 with
        | error e0 =>
          refine Or.inl ⟨e0, ?_⟩
          simp [detect_frame, hrun, jsonLookup, List.lookup]
        | ok pr =>
          obtain ⟨fr, dets⟩ := pr
          refine Or.inr ⟨buildResults dets, ?_, ?_⟩
          · simp [detect_frame, hrun, jsonLookup, List.lookup]
          · intro j hj
            unfold buildResults at hj
            by_cases hd : 0 < dets.xyxy.length
            · rw [if_pos hd] at hj
              rcases List.mem_map.mp hj with ⟨i2, hi2, rfl⟩
              exact jsonKeys_mkEntry dets i2
            · rw [if_neg hd] at hj
              exact absurd hj (List.not_mem_nil j)
  · cases initRes with
    | error e0 => exact ⟨e0, rfl⟩
    | ok u => exact ⟨"Could not load image", rfl⟩
  · cases initRes with
    | error e0 => exact ⟨e0, rfl⟩
    | ok u => exact ⟨e, rfl⟩

/-- C10: when the processed detections carry no tracker id array, or
fewer tracker ids than detections, the `track_id` field emitted for each
remaining detection is that detection's zero-based index. -/
theorem C10_track_id_fallback_is_index (d : Detections) (i : ℕ)
    (hi : i < d.xyxy.length)
    (h : d.tracker_id = none ∨ ∃ tids, d.tracker_id = some tids ∧ tids.length ≤ i) :
    jsonLookup ((buildResults d).getD i (.obj [])) "track_id"
      = some (.num ((i : ℕ) : ℚ)) := by
  have hpos : 0 < d.xyxy.length := Nat.lt_of_le_of_lt (Nat.zero_le i) hi
  have htid : trackIdOf d i = (i : ℤ) := by
    unfold trackIdOf
    rcases h with h | ⟨tids, ht, hle⟩
    · rw [h]
    · rw [ht]
      show (if h2 : i < tids.length then tids.get ⟨i, h2⟩ else (i : ℤ)) = (i : ℤ)
      rw [dif_neg (by omega)]
  unfold buildResults
  rw [if_pos hpos]
  have hlen : i < ((List.range d.xyxy.length).map (mkEntry d)).length := by
    simpa using hi
  rw [List.getD_eq_getElem _ _ hlen, List.getElem_map, List.getElem_range]
  have hlook : jsonLookup (mkEntry d i) "track_id"
      = some (.num ((trackIdOf d i : ℤ) : ℚ)) := rfl
  rw [hlook, htid]
  norm_num

/-- C10 witness: two detections but a single tracker id — the second
emitted entry falls back to `track_id = 1`, its index. -/
theorem C10_track_id_fallback_is_index_witness :
    1 < (Detections.mk [⟨0, 0, 1, 1⟩, ⟨1, 1, 2, 2⟩] [1/2, 1/2] [2, 2] (some [5])).xyxy.length ∧
    ((Detections.mk [⟨0, 0, 1, 1⟩, ⟨1, 1, 2, 2⟩] [1/2, 1/2] [2, 2] (some [5])).tracker_id = none ∨
      ∃ tids, (Detections.mk [⟨0, 0, 1, 1⟩, ⟨1, 1, 2, 2⟩] [1/2, 1/2] [2, 2] (some [5])).tracker_id
          = some tids ∧ tids.length ≤ 1) ∧
    jsonLookup ((buildResults (Detections.mk [⟨0, 0, 1, 1⟩, ⟨1, 1, 2, 2⟩] [1/2, 1/2] [2, 2]
        (some [5]))).getD 1 (.obj [])) "track_id" = some (.num ((1 : ℕ) : ℚ)) :=
  ⟨by decide, Or.inr ⟨[5], rfl, by decide⟩,
   C10_track_id_fallback_is_index
     (Detections.mk [⟨0, 0, 1, 1⟩, ⟨1, 1, 2, 2⟩] [1/2, 1/2] [2, 2] (some [5])) 1
     (by decide) (Or.inr ⟨[5], rfl, by decide⟩)⟩

end VehicleDetection
